import Mathlib

/-!
Verification of the tenant-to-shard resolver of the `multiverse-envoy-go`
repository: a shallow embedding of the Go sources (`simple/filter.go` for the
tiered lookup, the plugin config file for `PluginConfig`, `Merge` and the
LRU memory cache from `hashicorp/golang-lru/v2` that `filterFactory`
constructs), together with theorems about the embedded operations.

Conventions of the embedding:
  * Go `(string, error)` return pairs where a non-nil error forces the string
    to be empty are modelled as `Except String String`.
  * The external Redis and S3 clients are modelled by an `Env` record of
    oracles giving the outcome of each network call; `nil` client handles are
    modelled by explicit Boolean flags on the filter.
  * `time.Duration` values are modelled as `Int` (nanoseconds).
  * Side effects on the in-process LRU cache are threaded explicitly, and
    every tier query and cache write performed by `orchestratedLookup` is
    recorded in an event trace, so that "no later tier touched" and
    "populated before returning" become statements about that trace.
-/

/-! ## The in-process LRU cache (`hashicorp/golang-lru/v2`, as used by the filter)

`filterFactory` builds `lru.New[string, string](conf.MemoryCacheSize)`.
The cache is modelled as a capacity plus a recency-ordered association list,
most recently used first.  `Get` on a hit moves the entry to the front and
returns its value; `Add` of an existing key updates it and moves it to the
front; `Add` of a fresh key prepends it and, when the length then exceeds
the capacity, removes the back (least recently used) entry.  `lru.New`
rejects non-positive sizes, so constructed caches have positive capacity. -/

structure LRUCache where
  capacity : Nat
  entries : List (String × String)
deriving Repr, DecidableEq

/-- `Get(tenantID) -> (shardID, found)`: a hit refreshes recency. -/
def LRUCache.get (c : LRUCache) (k : String) : Option String × LRUCache :=
  match c.entries.find? (fun p => p.1 = k) with
  | none => (none, c)
  | some p => (some p.2, ⟨c.capacity, p :: c.entries.filter (fun q => ¬ q.1 = k)⟩)

/-- `Add(tenantID, shardID)`: insert or refresh; evict the back entry when
the capacity is exceeded. -/
def LRUCache.add (c : LRUCache) (k v : String) : LRUCache :=
  if c.entries.any (fun p => p.1 = k) then
    ⟨c.capacity, (k, v) :: c.entries.filter (fun q => ¬ q.1 = k)⟩
  else if c.capacity < ((k, v) :: c.entries).length then
    ⟨c.capacity, ((k, v) :: c.entries).dropLast⟩
  else
    ⟨c.capacity, (k, v) :: c.entries⟩

/-! ## Plugin configuration (`PluginConfig`) and `Merge` -/

structure PluginConfig where
  s3Bucket : String
  s3Key : String
  s3Region : String
  s3Endpoint : String
  redisAddr : String
  redisPassword : String
  redisDB : Int
  redisKeyPfx : String
  memoryCacheSize : Int
  redisTTL : Int
  tenantExtractionMode : String
  tenantHeaderName : String
  redisTimeout : Int
  s3Timeout : Int
deriving Repr, DecidableEq

/-- `Merge` from the config file: copy the parent (the Go code copies the
struct, never mutating the parent in place) and override each field with the
child's value exactly when that value differs from the field's zero value. -/
def PluginConfig.Merge (parentConfig childConfig : PluginConfig) : PluginConfig :=
  { s3Bucket := if childConfig.s3Bucket ≠ "" then childConfig.s3Bucket else parentConfig.s3Bucket
    s3Key := if childConfig.s3Key ≠ "" then childConfig.s3Key else parentConfig.s3Key
    s3Region := if childConfig.s3Region ≠ "" then childConfig.s3Region else parentConfig.s3Region
    s3Endpoint := if childConfig.s3Endpoint ≠ "" then childConfig.s3Endpoint else parentConfig.s3Endpoint
    redisAddr := if childConfig.redisAddr ≠ "" then childConfig.redisAddr else parentConfig.redisAddr
    redisPassword := if childConfig.redisPassword ≠ "" then childConfig.redisPassword else parentConfig.redisPassword
    redisDB := if childConfig.redisDB ≠ 0 then childConfig.redisDB else parentConfig.redisDB
    redisKeyPfx := if childConfig.redisKeyPfx ≠ "" then childConfig.redisKeyPfx else parentConfig.redisKeyPfx
    memoryCacheSize := if childConfig.memoryCacheSize ≠ 0 then childConfig.memoryCacheSize else parentConfig.memoryCacheSize
    redisTTL := if childConfig.redisTTL ≠ 0 then childConfig.redisTTL else parentConfig.redisTTL
    tenantExtractionMode := if childConfig.tenantExtractionMode ≠ "" then childConfig.tenantExtractionMode else parentConfig.tenantExtractionMode
    tenantHeaderName := if childConfig.tenantHeaderName ≠ "" then childConfig.tenantHeaderName else parentConfig.tenantHeaderName
    redisTimeout := if childConfig.redisTimeout ≠ 0 then childConfig.redisTimeout else parentConfig.redisTimeout
    s3Timeout := if childConfig.s3Timeout ≠ 0 then childConfig.s3Timeout else parentConfig.s3Timeout }

/-! ## Authoritative mapping data -/

structure TenantShardMapping where
  tenantID : String
  shardID : String
deriving Repr, DecidableEq

structure MappingData where
  mappings : List TenantShardMapping
deriving Repr, DecidableEq

/-! ## External world: Redis and S3 oracles -/

/-- Outcome of `redisClient.Get` as the Go client reports it:
`redis.Nil` (a miss), an operational error, or a stored string value. -/
inductive RedisGetResult where
  | nilReply : RedisGetResult
  | err : String → RedisGetResult
  | value : String → RedisGetResult
deriving Repr, DecidableEq

structure Env where
  /-- result of `redisClient.Get` on a full key (prefix ++ tenantID). -/
  redisGet : String → RedisGetResult
  /-- whether `redisClient.Set` on this full key and value succeeds. -/
  redisSetOk : String → String → Bool
  /-- outcome of the whole S3 `GetObjectWithContext` + `io.ReadAll` +
  `json.Unmarshal` pipeline: an error from any of the three stages, or the
  parsed document. -/
  s3Fetch : Except String MappingData

/-- The filter state that the lookup functions read: its config, its memory
cache (`none` models a nil `memoryCache` handle), and whether the Redis/S3
client handles are nil. -/
structure ShardRouterFilter where
  config : PluginConfig
  memoryCache : Option LRUCache
  redisClientNil : Bool
  s3ClientNil : Bool

/-! ## The tier lookup functions of `simple/filter.go` -/

/-- `lookupInMemoryCache`: consult the LRU cache when present.  The `Get`
refreshes recency, so the (possibly updated) cache is returned alongside. -/
def lookupInMemoryCache (mc : Option LRUCache) (tenantID : String) :
    Option String × Option LRUCache :=
  match mc with
  | none => (none, none)
  | some c =>
    match c.get tenantID with
    | (some shardID, c') => (some shardID, some c')
    | (none, c') => (none, some c')

/-- `lookupInRedisCache`: a nil client is an error; `redis.Nil` is reported
as `("" , nil)` (a miss); an operational error is propagated; otherwise the
stored value is returned. -/
def lookupInRedisCache (f : ShardRouterFilter) (env : Env) (tenantID : String) :
    Except String String :=
  if f.redisClientNil then .error "redis client not initialized"
  else
    match env.redisGet (f.config.redisKeyPfx ++ tenantID) with
    | .nilReply => .ok ""
    | .err e => .error e
    | .value shardID => .ok shardID

/-- `cacheInRedis`: best-effort `SET` of the mapping. -/
def cacheInRedis (f : ShardRouterFilter) (env : Env) (tenantID shardID : String) :
    Except String Unit :=
  if f.redisClientNil then .error "redis client not initialized"
  else if env.redisSetOk (f.config.redisKeyPfx ++ tenantID) shardID then .ok ()
  else .error "redis set failed"

/-- The linear scan of `lookupInS3` over `mappingData.Mappings`: the shard of
the first mapping whose tenant matches, in document order. -/
def findShard (tenantID : String) (ms : List TenantShardMapping) : Option String :=
  match ms.find? (fun m => m.tenantID = tenantID) with
  | some m => some m.shardID
  | none => none

/-- `lookupInS3`: fetch and parse the full document (any failure propagates),
then linear-search for the tenant; a miss is reported as `("" , nil)`. -/
def lookupInS3 (f : ShardRouterFilter) (env : Env) (tenantID : String) :
    Except String String :=
  if f.s3ClientNil then .error "s3 client not initialized"
  else
    match env.s3Fetch with
    | .error e => .error e
    | .ok mappingData =>
      match findShard tenantID mappingData.mappings with
      | some shardID => .ok shardID
      | none => .ok ""

/-- `cacheInMemory`: `Add` into the LRU cache when present. -/
def cacheInMemory (mc : Option LRUCache) (tenantID shardID : String) :
    Option LRUCache :=
  match mc with
  | none => none
  | some c => some (c.add tenantID shardID)

/-! ## The orchestrated lookup -/

/-- An observable action of one `orchestratedLookup` call, in order. -/
inductive Event where
  | queryMemory : Event
  | queryRedis : Event
  | queryS3 : Event
  | writeMemory : String → String → Event
  | writeRedis : String → String → Event
deriving Repr, DecidableEq

def Event.isQuery : Event → Bool
  | .queryMemory => true
  | .queryRedis => true
  | .queryS3 => true
  | _ => false

def Event.isWrite (ev : Event) : Bool := ¬ ev.isQuery

/-- Tier 3 of `orchestratedLookup` (shared by the Redis-error and Redis-miss
paths): S3 lookup, population of both caches on a non-empty hit, and the
"no shard mapping found" error otherwise. -/
def s3Phase (f : ShardRouterFilter) (env : Env) (tenantID : String)
    (mc : Option LRUCache) (tr : List Event) :
    Except String String × Option LRUCache × List Event :=
  match lookupInS3 f env tenantID with
  | .error e => (.error e, mc, tr ++ [.queryS3])
  | .ok shardID =>
    if shardID ≠ "" then
      (.ok shardID, cacheInMemory mc tenantID shardID,
        tr ++ [.queryS3, .writeRedis tenantID shardID, .writeMemory tenantID shardID])
    else
      (.error ("no shard mapping found for tenant: " ++ tenantID), mc, tr ++ [.queryS3])

/-- `orchestratedLookup`: memory cache, then Redis (an error there is only
logged and falls through), then S3, populating the faster tiers on the way
back.  Returns the Go `(shardID, error)` outcome, the updated memory cache,
and the trace of tier queries and cache writes. -/
def orchestratedLookup (f : ShardRouterFilter) (env : Env) (tenantID : String) :
    Except String String × Option LRUCache × List Event :=
  match lookupInMemoryCache f.memoryCache tenantID with
  | (some shardID, mc) => (.ok shardID, mc, [.queryMemory])
  | (none, mc) =>
    match lookupInRedisCache f env tenantID with
    | .error _ => s3Phase f env tenantID mc [.queryMemory, .queryRedis]
    | .ok shardID =>
      if shardID ≠ "" then
        (.ok shardID, cacheInMemory mc tenantID shardID,
          [.queryMemory, .queryRedis, .writeMemory tenantID shardID])
      else
        s3Phase f env tenantID mc [.queryMemory, .queryRedis]

/-! ## Concrete fixtures (the sample deployment of the repository's README) -/

def sampleConfig : PluginConfig :=
  { s3Bucket := "tenant-mappings", s3Key := "mappings.json", s3Region := "us-east-1",
    s3Endpoint := "", redisAddr := "redis:6379", redisPassword := "", redisDB := 1,
    redisKeyPfx := "shard_router:", memoryCacheSize := 1000, redisTTL := 300000000000,
    tenantExtractionMode := "subdomain", tenantHeaderName := "X-Tenant-ID",
    redisTimeout := 2000000000, s3Timeout := 5000000000 }

/-- A child configuration all of whose fields are at their zero values. -/
def zeroConfig : PluginConfig :=
  { s3Bucket := "", s3Key := "", s3Region := "", s3Endpoint := "", redisAddr := "",
    redisPassword := "", redisDB := 0, redisKeyPfx := "", memoryCacheSize := 0,
    redisTTL := 0, tenantExtractionMode := "", tenantHeaderName := "",
    redisTimeout := 0, s3Timeout := 0 }

def sampleTable : MappingData :=
  ⟨[⟨"tenant1", "shard-a"⟩, ⟨"acme", "shard-c"⟩]⟩

/-- A table violating the uniqueness invariant: `tenant1` appears twice. -/
def dupTable : MappingData :=
  ⟨[⟨"tenant1", "shard-a"⟩, ⟨"tenant1", "shard-z"⟩]⟩

def coldFilter : ShardRouterFilter :=
  { config := sampleConfig, memoryCache := some ⟨1000, []⟩,
    redisClientNil := false, s3ClientNil := false }

/-- Healthy world: Redis is empty (all misses), S3 serves `sampleTable`. -/
def envTable : Env :=
  { redisGet := fun _ => .nilReply, redisSetOk := fun _ _ => true,
    s3Fetch := .ok sampleTable }

/-- Redis is down; S3 serves `sampleTable`. -/
def envRedisDown : Env :=
  { redisGet := fun _ => .err "connection refused", redisSetOk := fun _ _ => false,
    s3Fetch := .ok sampleTable }

/-- Redis is empty and S3 is unreachable. -/
def envS3Down : Env :=
  { redisGet := fun _ => .nilReply, redisSetOk := fun _ _ => true,
    s3Fetch := .error "connection refused" }

/-- Redis is empty and S3 serves the duplicated table. -/
def envDup : Env :=
  { redisGet := fun _ => .nilReply, redisSetOk := fun _ _ => true,
    s3Fetch := .ok dupTable }

/-- Redis already holds `shard-b` for every key; S3 serves `sampleTable`. -/
def envRedisHit : Env :=
  { redisGet := fun _ => .value "shard-b", redisSetOk := fun _ _ => true,
    s3Fetch := .ok sampleTable }

/-- The LocalCache tier never holds an entry with an empty shard ID. -/
def noEmptyShard (mc : Option LRUCache) : Prop :=
  ∀ c, mc = some c → ∀ p ∈ c.entries, p.2 ≠ ""

/-! ## Helper lemmas about the LRU cache -/

lemma filter_ne_length_lt {l : List (String × String)} {k : String}
    (h : l.any (fun p => p.1 = k) = true) :
    (l.filter (fun q => ¬ q.1 = k)).length < l.length := by
  induction l with
  | nil => simp at h
  | cons a l ih =>
    by_cases ha : a.1 = k
    · rw [List.filter_cons_of_neg (by simp [ha])]
      exact Nat.lt_succ_of_le (List.length_filter_le _ _)
    · rw [List.filter_cons_of_pos (by simp [ha])]
      rw [List.length_cons, List.length_cons]
      refine Nat.succ_lt_succ (ih ?_)
      simp only [List.any_cons, ha] at h
      simpa using h

lemma lookupInMemoryCache_of_miss (mc : Option LRUCache) (t : String)
    (h : (lookupInMemoryCache mc t).1 = none) :
    lookupInMemoryCache mc t = (none, mc) := by
  match mc with
  | none => rfl
  | some c =>
    simp only [lookupInMemoryCache, LRUCache.get] at *
    cases hf : c.entries.find? (fun p => p.1 = t) with
    | none => simp [hf]
    | some p => simp [hf] at h

lemma LRUCache.get_hit (c : LRUCache) (k s : String) (c' : LRUCache)
    (h : c.get k = (some s, c')) :
    ∃ p, c.entries.find? (fun q => decide (q.1 = k)) = some p ∧ p.1 = k ∧ p.2 = s ∧
      c' = ⟨c.capacity, p :: c.entries.filter (fun q => ¬ q.1 = k)⟩ := by
  unfold LRUCache.get at h
  cases hf : c.entries.find? (fun q => decide (q.1 = k)) with
  | none => rw [hf] at h; simp at h
  | some p =>
    rw [hf] at h
    simp only [Prod.mk.injEq, Option.some.injEq] at h
    exact ⟨p, rfl, by simpa using List.find?_some hf, h.1, h.2.symm⟩

lemma LRUCache.get_hit_again {c : LRUCache} {k s : String} {c' : LRUCache}
    (h : c.get k = (some s, c')) : (c'.get k).1 = some s := by
  obtain ⟨p, _, hk, hv, hc⟩ := LRUCache.get_hit c k s c' h
  subst hc
  unfold LRUCache.get
  rw [List.find?_cons_of_pos _ (by simpa using hk)]
  simpa using hv

lemma LRUCache.get_cons_self (cap : Nat) (k v : String) (l : List (String × String)) :
    ((LRUCache.mk cap ((k, v) :: l)).get k).1 = some v := by
  unfold LRUCache.get
  rw [List.find?_cons_of_pos _ (by simp)]

lemma LRUCache.add_get {c : LRUCache} (hcap : 0 < c.capacity) (k v : String) :
    ((c.add k v).get k).1 = some v := by
  unfold LRUCache.add
  by_cases hany : c.entries.any (fun p => p.1 = k) = true
  · rw [if_pos hany]
    exact LRUCache.get_cons_self ..
  · rw [if_neg hany]
    by_cases hlt : c.capacity < ((k, v) :: c.entries).length
    · rw [if_pos hlt]
      cases hes : c.entries with
      | nil =>
        rw [hes] at hlt
        simp at hlt
        omega
      | cons a l =>
        rw [List.dropLast_cons₂]
        exact LRUCache.get_cons_self ..
    · rw [if_neg hlt]
      exact LRUCache.get_cons_self ..

lemma LRUCache.mem_get_hit {c : LRUCache} {k s : String} {c' : LRUCache}
    (h : c.get k = (some s, c')) : ∀ q ∈ c'.entries, q ∈ c.entries := by
  obtain ⟨p, hf, _, _, hc⟩ := LRUCache.get_hit c k s c' h
  subst hc
  intro q hq
  rcases List.mem_cons.mp hq with hq | hq
  · exact hq ▸ List.mem_of_find?_eq_some hf
  · exact List.mem_of_mem_filter hq

lemma LRUCache.get_hit_val_mem {c : LRUCache} {k s : String} {c' : LRUCache}
    (h : c.get k = (some s, c')) : ∃ p ∈ c.entries, p.2 = s := by
  obtain ⟨p, hf, _, hv, _⟩ := LRUCache.get_hit c k s c' h
  exact ⟨p, List.mem_of_find?_eq_some hf, hv⟩

lemma LRUCache.mem_add {c : LRUCache} {k v : String} :
    ∀ q ∈ (c.add k v).entries, q = (k, v) ∨ q ∈ c.entries := by
  intro q hq
  unfold LRUCache.add at hq
  by_cases hany : c.entries.any (fun p => p.1 = k) = true
  · rw [if_pos hany] at hq
    rcases List.mem_cons.mp hq with hq | hq
    · exact Or.inl hq
    · exact Or.inr (List.mem_of_mem_filter hq)
  · rw [if_neg hany] at hq
    by_cases hlt : c.capacity < ((k, v) :: c.entries).length
    · rw [if_pos hlt] at hq
      rcases List.mem_cons.mp (List.dropLast_subset _ hq) with hq' | hq'
      · exact Or.inl hq'
      · exact Or.inr hq'
    · rw [if_neg hlt] at hq
      rcases List.mem_cons.mp hq with hq | hq
      · exact Or.inl hq
      · exact Or.inr hq

/-! ## Reduction lemmas for `orchestratedLookup` -/

lemma orchestratedLookup_memHit (f : ShardRouterFilter) (env : Env) (t s : String)
    (mc : Option LRUCache) (h : lookupInMemoryCache f.memoryCache t = (some s, mc)) :
    orchestratedLookup f env t = (.ok s, mc, [.queryMemory]) := by
  unfold orchestratedLookup
  rw [h]

lemma orchestratedLookup_toS3 (f : ShardRouterFilter) (env : Env) (t : String)
    (hmem : (lookupInMemoryCache f.memoryCache t).1 = none)
    (hred : ∀ s, lookupInRedisCache f env t = .ok s → s = "") :
    orchestratedLookup f env t
      = s3Phase f env t f.memoryCache [.queryMemory, .queryRedis] := by
  unfold orchestratedLookup
  rw [lookupInMemoryCache_of_miss f.memoryCache t hmem]
  cases hr : lookupInRedisCache f env t with
  | error e => rfl
  | ok s =>
    have hs := hred s hr
    subst hs
    simp

lemma orchestratedLookup_redisHit (f : ShardRouterFilter) (env : Env) (t s : String)
    (hmem : (lookupInMemoryCache f.memoryCache t).1 = none)
    (hr : lookupInRedisCache f env t = .ok s) (hs : s ≠ "") :
    orchestratedLookup f env t
      = (.ok s, cacheInMemory f.memoryCache t s,
          [.queryMemory, .queryRedis, .writeMemory t s]) := by
  unfold orchestratedLookup
  rw [lookupInMemoryCache_of_miss f.memoryCache t hmem]
  simp [hr, hs]

lemma s3Phase_fetchError (f : ShardRouterFilter) (env : Env) (t : String)
    (mc : Option LRUCache) (tr : List Event) (e : String)
    (h3 : f.s3ClientNil = false) (he : env.s3Fetch = .error e) :
    s3Phase f env t mc tr = (.error e, mc, tr ++ [.queryS3]) := by
  simp [s3Phase, lookupInS3, h3, he]

lemma s3Phase_found (f : ShardRouterFilter) (env : Env) (t : String)
    (mc : Option LRUCache) (tr : List Event) (d : MappingData) (s : String)
    (h3 : f.s3ClientNil = false) (hd : env.s3Fetch = .ok d)
    (hf : findShard t d.mappings = some s) (hs : s ≠ "") :
    s3Phase f env t mc tr
      = (.ok s, cacheInMemory mc t s,
          tr ++ [.queryS3, .writeRedis t s, .writeMemory t s]) := by
  simp [s3Phase, lookupInS3, h3, hd, hf, hs]

lemma s3Phase_absent (f : ShardRouterFilter) (env : Env) (t : String)
    (mc : Option LRUCache) (tr : List Event) (d : MappingData)
    (h3 : f.s3ClientNil = false) (hd : env.s3Fetch = .ok d)
    (hf : findShard t d.mappings = none) :
    s3Phase f env t mc tr
      = (.error ("no shard mapping found for tenant: " ++ t), mc, tr ++ [.queryS3]) := by
  simp [s3Phase, lookupInS3, h3, hd, hf]

lemma lookupInMemoryCache_fst (c : LRUCache) (t : String) :
    (lookupInMemoryCache (some c) t).1 = (c.get t).1 := by
  cases hg : c.get t with
  | mk o c' => cases o <;> simp [lookupInMemoryCache, hg]

lemma lookupInMemoryCache_hit_elim {mc : Option LRUCache} {t s : String}
    {mc' : Option LRUCache} (h : lookupInMemoryCache mc t = (some s, mc')) :
    ∃ c c', mc = some c ∧ mc' = some c' ∧ c.get t = (some s, c') := by
  cases mc with
  | none => simp [lookupInMemoryCache] at h
  | some c =>
    cases hg : c.get t with
    | mk o c'' =>
      cases o with
      | some sv =>
        simp only [lookupInMemoryCache, hg, Prod.mk.injEq, Option.some.injEq] at h
        exact ⟨c, c'', rfl, h.2.symm, by rw [hg, h.1]⟩
      | none =>
        simp [lookupInMemoryCache, hg] at h

lemma s3Phase_of_lookup_error (f : ShardRouterFilter) (env : Env) (t : String)
    (mc : Option LRUCache) (tr : List Event) (e : String)
    (h : lookupInS3 f env t = .error e) :
    s3Phase f env t mc tr = (.error e, mc, tr ++ [.queryS3]) := by
  simp [s3Phase, h]

lemma s3Phase_of_lookup_found (f : ShardRouterFilter) (env : Env) (t : String)
    (mc : Option LRUCache) (tr : List Event) (s : String)
    (h : lookupInS3 f env t = .ok s) (hs : ¬ s = "") :
    s3Phase f env t mc tr
      = (.ok s, cacheInMemory mc t s,
          tr ++ [.queryS3, .writeRedis t s, .writeMemory t s]) := by
  simp [s3Phase, h, hs]

lemma s3Phase_of_lookup_empty (f : ShardRouterFilter) (env : Env) (t : String)
    (mc : Option LRUCache) (tr : List Event)
    (h : lookupInS3 f env t = .ok "") :
    s3Phase f env t mc tr
      = (.error ("no shard mapping found for tenant: " ++ t), mc, tr ++ [.queryS3]) := by
  simp [s3Phase, h]

lemma s3Phase_ok_inv (f : ShardRouterFilter) (env : Env) (t : String)
    (mc : Option LRUCache) (tr : List Event) (s : String)
    (h : (s3Phase f env t mc tr).1 = .ok s) :
    s ≠ "" ∧ (s3Phase f env t mc tr).2.1 = cacheInMemory mc t s := by
  cases hs3 : lookupInS3 f env t with
  | error e =>
    rw [s3Phase_of_lookup_error f env t mc tr e hs3] at h
    simp at h
  | ok shardID =>
    by_cases hne : shardID = ""
    · subst hne
      rw [s3Phase_of_lookup_empty f env t mc tr hs3] at h
      simp at h
    · rw [s3Phase_of_lookup_found f env t mc tr shardID hs3 hne] at h
      obtain rfl : shardID = s := by simpa using h
      rw [s3Phase_of_lookup_found f env t mc tr shardID hs3 hne]
      exact ⟨hne, rfl⟩

lemma s3Phase_congr (f : ShardRouterFilter) (t : String) (mc : Option LRUCache)
    (tr : List Event) (env1 env2 : Env) (h : env1.s3Fetch = env2.s3Fetch) :
    s3Phase f env1 t mc tr = s3Phase f env2 t mc tr := by
  unfold s3Phase lookupInS3
  rw [h]

lemma s3Phase_query_trace (f : ShardRouterFilter) (env : Env) (t : String)
    (mc : Option LRUCache) :
    (s3Phase f env t mc [.queryMemory, .queryRedis]).2.2.filter Event.isQuery
      = [.queryMemory, .queryRedis, .queryS3] := by
  cases hs3 : lookupInS3 f env t with
  | error e =>
    rw [s3Phase_of_lookup_error f env t mc _ e hs3]
    rfl
  | ok shardID =>
    by_cases hne : shardID = ""
    · subst hne
      rw [s3Phase_of_lookup_empty f env t mc _ hs3]
      rfl
    · rw [s3Phase_of_lookup_found f env t mc _ shardID hs3 hne]
      rfl

lemma s3_ok_mem_populated (f : ShardRouterFilter) (env : Env) (t : String)
    (tr : List Event) (c : LRUCache) (hmc : f.memoryCache = some c)
    (hcap : 0 < c.capacity) (s : String)
    (h : (s3Phase f env t f.memoryCache tr).1 = .ok s) :
    (lookupInMemoryCache (s3Phase f env t f.memoryCache tr).2.1 t).1 = some s := by
  obtain ⟨hne, hcache⟩ := s3Phase_ok_inv f env t f.memoryCache tr s h
  rw [hcache, hmc]
  show (lookupInMemoryCache (some (c.add t s)) t).1 = some s
  rw [lookupInMemoryCache_fst]
  exact LRUCache.add_get hcap t s

lemma resolve_ok_mem_populated (f : ShardRouterFilter) (env : Env) (t : String)
    (c : LRUCache) (hmc : f.memoryCache = some c) (hcap : 0 < c.capacity)
    (s : String) (h : (orchestratedLookup f env t).1 = .ok s) :
    (lookupInMemoryCache (orchestratedLookup f env t).2.1 t).1 = some s := by
  cases hm : lookupInMemoryCache f.memoryCache t with
  | mk o mc0 =>
    cases o with
    | some s0 =>
      rw [orchestratedLookup_memHit f env t s0 mc0 hm] at h ⊢
      obtain rfl : s0 = s := by simpa using h
      obtain ⟨cc, cc', hcc, hcc', hg⟩ := lookupInMemoryCache_hit_elim hm
      rw [hcc', lookupInMemoryCache_fst]
      exact LRUCache.get_hit_again hg
    | none =>
      have hmem : (lookupInMemoryCache f.memoryCache t).1 = none := by rw [hm]
      cases hr : lookupInRedisCache f env t with
      | error e =>
        have hred : ∀ s', lookupInRedisCache f env t = .ok s' → s' = "" := by
          intro s' h'
          rw [hr] at h'
          simp at h'
        rw [orchestratedLookup_toS3 f env t hmem hred] at h ⊢
        exact s3_ok_mem_populated f env t _ c hmc hcap s h
      | ok s0 =>
        by_cases hs0 : s0 = ""
        · subst hs0
          have hred : ∀ s', lookupInRedisCache f env t = .ok s' → s' = "" := by
            intro s' h'
            rw [hr] at h'
            exact (Except.ok.inj h').symm
          rw [orchestratedLookup_toS3 f env t hmem hred] at h ⊢
          exact s3_ok_mem_populated f env t _ c hmc hcap s h
        · rw [orchestratedLookup_redisHit f env t s0 hmem hr hs0] at h ⊢
          have hss : s0 = s := by simpa using h
          rw [hmc, ← hss]
          show (lookupInMemoryCache (some (c.add t s0)) t).1 = some s0
          rw [lookupInMemoryCache_fst]
          exact LRUCache.add_get hcap t s0

lemma noEmptyShard_cacheInMemory {mc : Option LRUCache} {t s : String}
    (hinv : noEmptyShard mc) (hs : s ≠ "") :
    noEmptyShard (cacheInMemory mc t s) := by
  cases mc with
  | none => intro c h; cases h
  | some c =>
    intro c' h p hp
    have hc' : c' = c.add t s := by
      simpa [cacheInMemory] using h.symm
    subst hc'
    rcases LRUCache.mem_add p hp with h' | h'
    · rw [h']
      exact hs
    · exact hinv c rfl p h'

lemma noEmptyShard_get_hit {c : LRUCache} {t s : String} {c' : LRUCache}
    (hinv : noEmptyShard (some c)) (hg : c.get t = (some s, c')) :
    noEmptyShard (some c') := by
  intro c'' h p hp
  obtain rfl : c'' = c' := by simpa using h.symm
  exact hinv c rfl p (LRUCache.mem_get_hit hg p hp)

lemma s3Phase_no_empty (f : ShardRouterFilter) (env : Env) (t : String)
    (mc : Option LRUCache) (tr : List Event) (hinv : noEmptyShard mc) :
    (∀ s, (s3Phase f env t mc tr).1 = .ok s → s ≠ "")
    ∧ noEmptyShard (s3Phase f env t mc tr).2.1
    ∧ (∀ t' s', (Event.writeMemory t' s' ∈ (s3Phase f env t mc tr).2.2
          ∨ Event.writeRedis t' s' ∈ (s3Phase f env t mc tr).2.2) →
        (Event.writeMemory t' s' ∈ tr ∨ Event.writeRedis t' s' ∈ tr ∨ s' ≠ "")) := by
  cases hs3 : lookupInS3 f env t with
  | error e =>
    rw [s3Phase_of_lookup_error f env t mc tr e hs3]
    refine ⟨fun s h => by simp at h, hinv, fun t' s' h => ?_⟩
    rcases h with h | h
    · rcases List.mem_append.mp h with h' | h'
      · exact Or.inl h'
      · simp at h'
    · rcases List.mem_append.mp h with h' | h'
      · exact Or.inr (Or.inl h')
      · simp at h'
  | ok shardID =>
    by_cases hne : shardID = ""
    · subst hne
      rw [s3Phase_of_lookup_empty f env t mc tr hs3]
      refine ⟨fun s h => by simp at h, hinv, fun t' s' h => ?_⟩
      rcases h with h | h
      · rcases List.mem_append.mp h with h' | h'
        · exact Or.inl h'
        · simp at h'
      · rcases List.mem_append.mp h with h' | h'
        · exact Or.inr (Or.inl h')
        · simp at h'
    · rw [s3Phase_of_lookup_found f env t mc tr shardID hs3 hne]
      refine ⟨fun s h => ?_, noEmptyShard_cacheInMemory hinv hne, fun t' s' h => ?_⟩
      · obtain rfl : shardID = s := by simpa using h
        exact hne
      · rcases h with h | h
        · rcases List.mem_append.mp h with h' | h'
          · exact Or.inl h'
          · refine Or.inr (Or.inr ?_)
            rcases List.mem_cons.mp h' with h'' | h''
            · simp at h''
            · rcases List.mem_cons.mp h'' with h3 | h3
              · simp at h3
              · rcases List.mem_cons.mp h3 with h4 | h4
                · obtain ⟨rfl, rfl⟩ : t' = t ∧ s' = shardID := by
                    simpa [Event.writeMemory.injEq] using h4
                  exact hne
                · simp at h4
        · rcases List.mem_append.mp h with h' | h'
          · exact Or.inr (Or.inl h')
          · refine Or.inr (Or.inr ?_)
            rcases List.mem_cons.mp h' with h'' | h''
            · simp at h''
            · rcases List.mem_cons.mp h'' with h3 | h3
              · obtain ⟨rfl, rfl⟩ : t' = t ∧ s' = shardID := by
                  simpa [Event.writeRedis.injEq] using h3
                exact hne
              · rcases List.mem_cons.mp h3 with h4 | h4
                · simp at h4
                · simp at h4

/-! ## Claims -/

/-- C1, as stated, is false on the code: for a tenantID absent from the
authoritative table (and cached nowhere), `orchestratedLookup` does NOT
return a non-error "no mapping" outcome — it returns an error
(`fmt.Errorf("no shard mapping found for tenant: %s", tenantID)`), of the
same Go `error` kind as an infrastructure failure. -/
theorem noMapping_is_error_counterexample :
    (orchestratedLookup coldFilter envTable "missing").1
      = .error "no shard mapping found for tenant: missing" := by
  rfl

/-- C1 (amended): a tenantID absent from the authoritative table (with both
cache tiers missing) yields the distinguished error
`"no shard mapping found for tenant: <id>"` — an error value, distinguishable
from an infrastructure failure only by its message — and is not cached in
any tier (the trace holds no write event and the memory cache is unchanged). -/
theorem noMapping_distinguished_error (f : ShardRouterFilter) (env : Env) (t : String)
    (hmem : (lookupInMemoryCache f.memoryCache t).1 = none)
    (hred : ∀ s, lookupInRedisCache f env t = .ok s → s = "")
    (h3 : f.s3ClientNil = false) (d : MappingData) (hd : env.s3Fetch = .ok d)
    (habs : findShard t d.mappings = none) :
    orchestratedLookup f env t
      = (.error ("no shard mapping found for tenant: " ++ t), f.memoryCache,
          [.queryMemory, .queryRedis, .queryS3]) := by
  rw [orchestratedLookup_toS3 f env t hmem hred,
    s3Phase_absent f env t f.memoryCache [.queryMemory, .queryRedis] d h3 hd habs]
  rfl

/-- Witness for `noMapping_distinguished_error` at the sample table. -/
theorem noMapping_distinguished_error_witness :
    orchestratedLookup coldFilter envTable "missing"
      = (.error ("no shard mapping found for tenant: " ++ "missing"),
          coldFilter.memoryCache, [.queryMemory, .queryRedis, .queryS3]) :=
  noMapping_distinguished_error coldFilter envTable "missing" rfl
    (fun _ h => (Except.ok.inj h).symm) rfl sampleTable rfl rfl

/-- C2: a tenantID present in the authoritative table resolves to `Found`
with that tenant's (non-empty) shardID from the table, even when the memory
cache starts cold (empty) and the Redis tier misses, provided the S3 fetch
succeeds. -/
theorem resolve_cold_found (f : ShardRouterFilter) (env : Env) (t : String)
    (cc : LRUCache) (hmc : f.memoryCache = some cc) (hcold : cc.entries = [])
    (hrn : f.redisClientNil = false)
    (hmiss : env.redisGet (f.config.redisKeyPfx ++ t) = .nilReply)
    (h3 : f.s3ClientNil = false) (d : MappingData) (hd : env.s3Fetch = .ok d)
    (s : String) (hfind : findShard t d.mappings = some s) (hs : s ≠ "") :
    (orchestratedLookup f env t).1 = .ok s := by
  have hmem : (lookupInMemoryCache f.memoryCache t).1 = none := by
    rw [hmc]
    simp [lookupInMemoryCache, LRUCache.get, hcold]
  have hred : ∀ s', lookupInRedisCache f env t = .ok s' → s' = "" := by
    intro s' h
    rw [lookupInRedisCache, if_neg (by simp [hrn]), hmiss] at h
    exact (Except.ok.inj h).symm
  rw [orchestratedLookup_toS3 f env t hmem hred,
    s3Phase_found f env t f.memoryCache [.queryMemory, .queryRedis] d s h3 hd hfind hs]

/-- Witness for `resolve_cold_found`: `tenant1` resolves to `shard-a`. -/
theorem resolve_cold_found_witness :
    (orchestratedLookup coldFilter envTable "tenant1").1 = .ok "shard-a" :=
  resolve_cold_found coldFilter envTable "tenant1" ⟨1000, []⟩ rfl rfl rfl rfl rfl
    sampleTable rfl "shard-a" rfl (by decide)

/-- C4: when the memory tier misses and the Redis tier produces no hit, an
AuthoritativeStore failure (fetch, body-read or parse error — all collapsed
into the error outcome of `lookupInS3`) is propagated as the failure of the
whole resolution. -/
theorem s3_failure_propagates (f : ShardRouterFilter) (env : Env) (t e : String)
    (hmem : (lookupInMemoryCache f.memoryCache t).1 = none)
    (hred : ∀ s, lookupInRedisCache f env t = .ok s → s = "")
    (h3 : f.s3ClientNil = false) (he : env.s3Fetch = .error e) :
    orchestratedLookup f env t
      = (.error e, f.memoryCache, [.queryMemory, .queryRedis, .queryS3]) := by
  rw [orchestratedLookup_toS3 f env t hmem hred,
    s3Phase_fetchError f env t f.memoryCache [.queryMemory, .queryRedis] e h3 he]
  rfl

/-- Witness for `s3_failure_propagates`: with S3 down and the caches cold,
the resolution fails with the S3 error. -/
theorem s3_failure_propagates_witness :
    orchestratedLookup coldFilter envS3Down "tenant1"
      = (.error "connection refused", coldFilter.memoryCache,
          [.queryMemory, .queryRedis, .queryS3]) :=
  s3_failure_propagates coldFilter envS3Down "tenant1" "connection refused" rfl
    (fun _ h => (Except.ok.inj h).symm) rfl rfl

/-- C8: if the fetched authoritative table contains a tenant more than once,
`lookupInS3` returns the shardID of the first occurrence in document order
(first-match-wins of the linear scan). -/
theorem first_match_wins (f : ShardRouterFilter) (env : Env) (t : String)
    (h3 : f.s3ClientNil = false) (d : MappingData) (hd : env.s3Fetch = .ok d)
    (pre suf : List TenantShardMapping) (s : String)
    (hsplit : d.mappings = pre ++ ⟨t, s⟩ :: suf)
    (hpre : ∀ m ∈ pre, m.tenantID ≠ t) :
    lookupInS3 f env t = .ok s := by
  have hfind : findShard t d.mappings = some s := by
    rw [hsplit]
    unfold findShard
    rw [List.find?_append]
    have h1 : pre.find? (fun m => m.tenantID = t) = none := by
      rw [List.find?_eq_none]
      intro m hm
      simp [hpre m hm]
    rw [h1, List.find?_cons_of_pos _ (by simp)]
    rfl
  simp [lookupInS3, h3, hd, hfind]

/-- Witness for `first_match_wins` on the duplicated table: the first
occurrence's `shard-a` (not the later `shard-z`) is returned. -/
theorem first_match_wins_witness :
    lookupInS3 coldFilter envDup "tenant1" = .ok "shard-a" :=
  first_match_wins coldFilter envDup "tenant1" rfl dupTable rfl
    [] [⟨"tenant1", "shard-z"⟩] "shard-a" rfl (by simp)

/-- C3: the tiers are consulted in the fixed order memory, Redis, S3 (part 2
enumerates every possible query trace); a memory-cache hit returns
immediately with a trace containing only the memory query (part 1); and
after any successful resolution, an immediately following lookup for the
same tenant (with the updated cache, under any environment) is satisfied by
the memory cache alone with the same shardID (part 3). -/
theorem tier_order_and_hot_path :
    (∀ (f : ShardRouterFilter) (env : Env) (t s : String) (mc : Option LRUCache),
      lookupInMemoryCache f.memoryCache t = (some s, mc) →
        orchestratedLookup f env t = (.ok s, mc, [.queryMemory]))
    ∧ (∀ (f : ShardRouterFilter) (env : Env) (t : String),
        (orchestratedLookup f env t).2.2.filter Event.isQuery = [.queryMemory]
        ∨ (orchestratedLookup f env t).2.2.filter Event.isQuery
            = [.queryMemory, .queryRedis]
        ∨ (orchestratedLookup f env t).2.2.filter Event.isQuery
            = [.queryMemory, .queryRedis, .queryS3])
    ∧ (∀ (f : ShardRouterFilter) (env : Env) (t : String) (c : LRUCache),
        f.memoryCache = some c → 0 < c.capacity →
        ∀ (s : String) (mc' : Option LRUCache) (tr : List Event),
          orchestratedLookup f env t = (.ok s, mc', tr) →
          ∀ env' : Env,
            orchestratedLookup { f with memoryCache := mc' } env' t
              = (.ok s, (lookupInMemoryCache mc' t).2, [.queryMemory])) := by
  refine ⟨?_, ?_, ?_⟩
  · intro f env t s mc h
    exact orchestratedLookup_memHit f env t s mc h
  · intro f env t
    cases hm : lookupInMemoryCache f.memoryCache t with
    | mk o mc0 =>
      cases o with
      | some s0 =>
        rw [orchestratedLookup_memHit f env t s0 mc0 hm]
        exact Or.inl rfl
      | none =>
        have hmem : (lookupInMemoryCache f.memoryCache t).1 = none := by rw [hm]
        cases hr : lookupInRedisCache f env t with
        | error e =>
          have hred : ∀ s', lookupInRedisCache f env t = .ok s' → s' = "" := by
            intro s' h'
            rw [hr] at h'
            simp at h'
          rw [orchestratedLookup_toS3 f env t hmem hred]
          exact Or.inr (Or.inr (s3Phase_query_trace f env t f.memoryCache))
        | ok s0 =>
          by_cases hs0 : s0 = ""
          · subst hs0
            have hred : ∀ s', lookupInRedisCache f env t = .ok s' → s' = "" := by
              intro s' h'
              rw [hr] at h'
              exact (Except.ok.inj h').symm
            rw [orchestratedLookup_toS3 f env t hmem hred]
            exact Or.inr (Or.inr (s3Phase_query_trace f env t f.memoryCache))
          · rw [orchestratedLookup_redisHit f env t s0 hmem hr hs0]
            exact Or.inr (Or.inl rfl)
  · intro f env t c hmc hcap s mc' tr h env'
    have hpop : (lookupInMemoryCache mc' t).1 = some s := by
      have h1 : (orchestratedLookup f env t).1 = .ok s := by rw [h]
      have h2 := resolve_ok_mem_populated f env t c hmc hcap s h1
      rw [h] at h2
      exact h2
    have hfull : lookupInMemoryCache mc' t = (some s, (lookupInMemoryCache mc' t).2) := by
      cases hx : lookupInMemoryCache mc' t with
      | mk o m =>
        rw [hx] at hpop
        have ho : o = some s := hpop
        rw [ho]
    exact orchestratedLookup_memHit { f with memoryCache := mc' } env' t s
      (lookupInMemoryCache mc' t).2 hfull

/-- Witness for `tier_order_and_hot_path`: after resolving `tenant1` through
S3, an immediate second lookup (even with S3 down) is a pure memory hit. -/
theorem tier_order_and_hot_path_witness :
    orchestratedLookup
        { coldFilter with memoryCache := some ⟨1000, [("tenant1", "shard-a")]⟩ }
        envS3Down "tenant1"
      = (.ok "shard-a",
          (lookupInMemoryCache (some ⟨1000, [("tenant1", "shard-a")]⟩) "tenant1").2,
          [.queryMemory]) :=
  tier_order_and_hot_path.2.2 coldFilter envTable "tenant1" ⟨1000, []⟩ rfl (by decide)
    "shard-a" (some ⟨1000, [("tenant1", "shard-a")]⟩)
    [.queryMemory, .queryRedis, .queryS3, .writeRedis "tenant1" "shard-a",
      .writeMemory "tenant1" "shard-a"] rfl envS3Down

/-- C5: a Redis (SharedCache) operational error during lookup never changes
the outcome — the whole resolution behaves exactly as if Redis had simply
missed (part 1, an equality of results, caches and traces); in particular,
with Redis erroring and S3 containing the tenant, the resolution still
returns the shard and populates the memory cache (part 2). -/
theorem redis_error_degrades :
    (∀ (f : ShardRouterFilter) (env : Env) (t e : String),
      orchestratedLookup f { env with redisGet := fun _ => .err e } t
        = orchestratedLookup f { env with redisGet := fun _ => .nilReply } t)
    ∧ (∀ (f : ShardRouterFilter) (env : Env) (t e : String) (c : LRUCache),
        (lookupInMemoryCache f.memoryCache t).1 = none →
        lookupInRedisCache f env t = .error e →
        f.memoryCache = some c → 0 < c.capacity →
        f.s3ClientNil = false →
        ∀ d : MappingData, env.s3Fetch = .ok d →
        ∀ s : String, findShard t d.mappings = some s → s ≠ "" →
          orchestratedLookup f env t
            = (.ok s, some (c.add t s),
                [.queryMemory, .queryRedis, .queryS3, .writeRedis t s,
                  .writeMemory t s])
          ∧ ((c.add t s).get t).1 = some s) := by
  constructor
  · intro f env t e
    cases hm : lookupInMemoryCache f.memoryCache t with
    | mk o mc0 =>
      cases o with
      | some s0 =>
        rw [orchestratedLookup_memHit f _ t s0 mc0 hm,
          orchestratedLookup_memHit f _ t s0 mc0 hm]
      | none =>
        have hmem : (lookupInMemoryCache f.memoryCache t).1 = none := by rw [hm]
        have h1 : ∀ s,
            lookupInRedisCache f { env with redisGet := fun _ => .err e } t = .ok s
              → s = "" := by
          intro s h
          unfold lookupInRedisCache at h
          by_cases hnil : f.redisClientNil = true
          · rw [if_pos hnil] at h
            simp at h
          · rw [if_neg hnil] at h
            simp at h
        have h2 : ∀ s,
            lookupInRedisCache f { env with redisGet := fun _ => .nilReply } t = .ok s
              → s = "" := by
          intro s h
          unfold lookupInRedisCache at h
          by_cases hnil : f.redisClientNil = true
          · rw [if_pos hnil] at h
            simp at h
          · rw [if_neg hnil] at h
            simpa using h.symm
        rw [orchestratedLookup_toS3 _ _ t hmem h1, orchestratedLookup_toS3 _ _ t hmem h2]
        exact s3Phase_congr f t f.memoryCache [.queryMemory, .queryRedis] _ _ rfl
  · intro f env t e c hmem herr hmc hcap h3 d hd s hfind hs
    have hred : ∀ s', lookupInRedisCache f env t = .ok s' → s' = "" := by
      intro s' h'
      rw [herr] at h'
      simp at h'
    constructor
    · rw [orchestratedLookup_toS3 f env t hmem hred,
        s3Phase_found f env t f.memoryCache [.queryMemory, .queryRedis] d s h3 hd hfind hs,
        hmc]
      rfl
    · exact LRUCache.add_get hcap t s

/-- Witness for `redis_error_degrades` with Redis down and `tenant1` in S3. -/
theorem redis_error_degrades_witness :
    (orchestratedLookup coldFilter envRedisDown "tenant1"
      = (.ok "shard-a", some ((⟨1000, []⟩ : LRUCache).add "tenant1" "shard-a"),
          [.queryMemory, .queryRedis, .queryS3, .writeRedis "tenant1" "shard-a",
            .writeMemory "tenant1" "shard-a"]))
    ∧ ((((⟨1000, []⟩ : LRUCache).add "tenant1" "shard-a").get "tenant1").1
        = some "shard-a") :=
  redis_error_degrades.2 coldFilter envRedisDown "tenant1" "connection refused"
    ⟨1000, []⟩ rfl rfl rfl (by decide) rfl sampleTable rfl "shard-a" rfl (by decide)

/-- C6: a hit at the S3 tier writes the mapping into both Redis and the
memory cache before returning (the write events precede the end of the
trace, and the Redis write outcome `env.redisSetOk` does not appear in the
conclusion — a Redis write failure cannot change the `Found` result);
a hit at the Redis tier writes the mapping into the memory cache before
returning. -/
theorem found_populates_faster_tiers :
    (∀ (f : ShardRouterFilter) (env : Env) (t : String) (d : MappingData) (s : String),
      (lookupInMemoryCache f.memoryCache t).1 = none →
      (∀ s', lookupInRedisCache f env t = .ok s' → s' = "") →
      f.s3ClientNil = false → env.s3Fetch = .ok d →
      findShard t d.mappings = some s → s ≠ "" →
      orchestratedLookup f env t
        = (.ok s, cacheInMemory f.memoryCache t s,
            [.queryMemory, .queryRedis, .queryS3, .writeRedis t s, .writeMemory t s]))
    ∧ (∀ (f : ShardRouterFilter) (env : Env) (t s : String),
        (lookupInMemoryCache f.memoryCache t).1 = none →
        lookupInRedisCache f env t = .ok s → s ≠ "" →
        orchestratedLookup f env t
          = (.ok s, cacheInMemory f.memoryCache t s,
              [.queryMemory, .queryRedis, .writeMemory t s])) := by
  constructor
  · intro f env t d s hmem hred h3 hd hfind hs
    rw [orchestratedLookup_toS3 f env t hmem hred,
      s3Phase_found f env t f.memoryCache [.queryMemory, .queryRedis] d s h3 hd hfind hs]
    rfl
  · intro f env t s hmem hr hs
    exact orchestratedLookup_redisHit f env t s hmem hr hs

/-- Witness for `found_populates_faster_tiers`: an S3 hit for `tenant1` and a
Redis hit for `tenant2`. -/
theorem found_populates_faster_tiers_witness :
    (orchestratedLookup coldFilter envTable "tenant1"
      = (.ok "shard-a", cacheInMemory coldFilter.memoryCache "tenant1" "shard-a",
          [.queryMemory, .queryRedis, .queryS3, .writeRedis "tenant1" "shard-a",
            .writeMemory "tenant1" "shard-a"]))
    ∧ (orchestratedLookup coldFilter envRedisHit "tenant2"
      = (.ok "shard-b", cacheInMemory coldFilter.memoryCache "tenant2" "shard-b",
          [.queryMemory, .queryRedis, .writeMemory "tenant2" "shard-b"])) :=
  ⟨found_populates_faster_tiers.1 coldFilter envTable "tenant1" sampleTable "shard-a"
      rfl (fun s' h => (Except.ok.inj h).symm) rfl rfl rfl (by decide),
    found_populates_faster_tiers.2 coldFilter envRedisHit "tenant2" "shard-b"
      rfl rfl (by decide)⟩

lemma orchestrated_s3_no_empty (f : ShardRouterFilter) (env : Env) (t : String)
    (hmem : (lookupInMemoryCache f.memoryCache t).1 = none)
    (hred : ∀ s', lookupInRedisCache f env t = .ok s' → s' = "")
    (hinv : noEmptyShard f.memoryCache) :
    (∀ s, (orchestratedLookup f env t).1 = .ok s → s ≠ "")
    ∧ noEmptyShard (orchestratedLookup f env t).2.1
    ∧ (∀ t' s', Event.writeMemory t' s' ∈ (orchestratedLookup f env t).2.2 → s' ≠ "")
    ∧ (∀ t' s', Event.writeRedis t' s' ∈ (orchestratedLookup f env t).2.2 → s' ≠ "") := by
  rw [orchestratedLookup_toS3 f env t hmem hred]
  obtain ⟨ha, hb, hc2⟩ :=
    s3Phase_no_empty f env t f.memoryCache [.queryMemory, .queryRedis] hinv
  refine ⟨ha, hb, ?_, ?_⟩
  · intro t' s' h
    rcases hc2 t' s' (Or.inl h) with h' | h' | h'
    · simp at h'
    · simp at h'
    · exact h'
  · intro t' s' h
    rcases hc2 t' s' (Or.inr h) with h' | h' | h'
    · simp at h'
    · simp at h'
    · exact h'

/-- C7: provided the memory cache holds no empty shardID (true of any cache
populated only by this code, starting from the empty cache `filterFactory`
builds), a resolution never returns `.ok ""`, never writes an empty shardID
into the memory cache or Redis (an empty string at the Redis or S3 tier is
treated as absence and falls through), and preserves the invariant. -/
theorem no_empty_shard_stored (f : ShardRouterFilter) (env : Env) (t : String)
    (hinv : noEmptyShard f.memoryCache) :
    (∀ s, (orchestratedLookup f env t).1 = .ok s → s ≠ "")
    ∧ noEmptyShard (orchestratedLookup f env t).2.1
    ∧ (∀ t' s', Event.writeMemory t' s' ∈ (orchestratedLookup f env t).2.2 → s' ≠ "")
    ∧ (∀ t' s', Event.writeRedis t' s' ∈ (orchestratedLookup f env t).2.2 → s' ≠ "") := by
  cases hm : lookupInMemoryCache f.memoryCache t with
  | mk o mc0 =>
    cases o with
    | some s0 =>
      rw [orchestratedLookup_memHit f env t s0 mc0 hm]
      obtain ⟨c, c', hc, hc', hg⟩ := lookupInMemoryCache_hit_elim hm
      refine ⟨?_, ?_, ?_, ?_⟩
      · intro s h
        have hs0 : s0 = s := by simpa using h
        obtain ⟨p, hp, hps⟩ := LRUCache.get_hit_val_mem hg
        rw [← hs0, ← hps]
        exact hinv c hc p hp
      · have : noEmptyShard (some c') := noEmptyShard_get_hit (fun cc hcc => hinv cc (by rw [hc, ← hcc])) hg
        rw [show ((Except.ok s0, mc0, [Event.queryMemory]).2.1) = mc0 from rfl, hc']
        exact this
      · intro t' s' h
        simp at h
      · intro t' s' h
        simp at h
    | none =>
      have hmem : (lookupInMemoryCache f.memoryCache t).1 = none := by rw [hm]
      cases hr : lookupInRedisCache f env t with
      | error e =>
        have hred : ∀ s', lookupInRedisCache f env t = .ok s' → s' = "" := by
          intro s' h'
          rw [hr] at h'
          simp at h'
        exact orchestrated_s3_no_empty f env t hmem hred hinv
      | ok s0 =>
        by_cases hs0 : s0 = ""
        · subst hs0
          have hred : ∀ s', lookupInRedisCache f env t = .ok s' → s' = "" := by
            intro s' h'
            rw [hr] at h'
            exact (Except.ok.inj h').symm
          exact orchestrated_s3_no_empty f env t hmem hred hinv
        · rw [orchestratedLookup_redisHit f env t s0 hmem hr hs0]
          refine ⟨?_, noEmptyShard_cacheInMemory hinv hs0, ?_, ?_⟩
          · intro s h
            have : s0 = s := by simpa using h
            rw [← this]
            exact hs0
          · intro t' s' h
            simp only [List.mem_cons] at h
            rcases h with h | h | h
            · simp at h
            · simp at h
            · have : t' = t ∧ s' = s0 := by simpa using h
              rw [this.2]
              exact hs0
          · intro t' s' h
            simp at h

/-- Witness for `no_empty_shard_stored` on the cold filter. -/
theorem no_empty_shard_stored_witness :
    (∀ s, (orchestratedLookup coldFilter envTable "tenant1").1 = .ok s → s ≠ "")
    ∧ noEmptyShard (orchestratedLookup coldFilter envTable "tenant1").2.1
    ∧ (∀ t' s',
        Event.writeMemory t' s' ∈ (orchestratedLookup coldFilter envTable "tenant1").2.2
          → s' ≠ "")
    ∧ (∀ t' s',
        Event.writeRedis t' s' ∈ (orchestratedLookup coldFilter envTable "tenant1").2.2
          → s' ≠ "") :=
  no_empty_shard_stored coldFilter envTable "tenant1"
    (fun c hc => by
      obtain rfl : (⟨1000, []⟩ : LRUCache) = c := by simpa [coldFilter] using hc
      simp)

/-- C9: the LRU memory cache never grows beyond its capacity (part 1);
inserting a fresh key into a full cache evicts exactly the least-recently-used
(back) entry (part 2); a `Get` hit moves the entry to the front, refreshing
its recency (part 3); and in the fill-touch-insert scenario of the spec the
touched entry survives while the untouched older one is evicted (part 4). -/
theorem lru_capacity_and_eviction :
    (∀ (c : LRUCache) (k v : String),
      c.entries.length ≤ c.capacity → (c.add k v).entries.length ≤ c.capacity)
    ∧ (∀ (c : LRUCache) (k v : String), 0 < c.capacity →
        c.entries.length = c.capacity → (∀ p ∈ c.entries, p.1 ≠ k) →
        (c.add k v).entries = (k, v) :: c.entries.dropLast)
    ∧ (∀ (c : LRUCache) (k s : String) (c' : LRUCache),
        c.get k = (some s, c') → c'.entries.head? = some (k, s))
    ∧ ((((((LRUCache.mk 2 []).add "a" "1").add "b" "2").get "a").2.add "c" "3").entries
        = [("c", "3"), ("a", "1")]) := by
  refine ⟨?_, ?_, ?_, by decide⟩
  · intro c k v h
    unfold LRUCache.add
    by_cases hany : c.entries.any (fun p => p.1 = k) = true
    · rw [if_pos hany]
      have hlt := filter_ne_length_lt hany
      simp only [List.length_cons]
      omega
    · rw [if_neg hany]
      by_cases hlt : c.capacity < ((k, v) :: c.entries).length
      · rw [if_pos hlt]
        simp only [List.length_dropLast, List.length_cons]
        omega
      · rw [if_neg hlt]
        simp only [List.length_cons] at hlt ⊢
        omega
  · intro c k v hcap hfull hfresh
    have hany : c.entries.any (fun p => p.1 = k) = false := by
      rw [List.any_eq_false]
      intro p hp
      simp [hfresh p hp]
    unfold LRUCache.add
    rw [if_neg (by simp [hany]), if_pos (by rw [List.length_cons, hfull]; omega)]
    cases hes : c.entries with
    | nil =>
      rw [hes] at hfull
      simp at hfull
      omega
    | cons a l =>
      rw [List.dropLast_cons₂]
  · intro c k s c' h
    obtain ⟨p, hf, hk, hv, hc⟩ := LRUCache.get_hit c k s c' h
    subst hc
    cases p with
    | mk p1 p2 =>
      simp only at hk hv
      rw [hk, hv]
      rfl

/-- Witness for `lru_capacity_and_eviction` at capacity 2. -/
theorem lru_capacity_and_eviction_witness :
    ((((LRUCache.mk 2 [("b", "2"), ("a", "1")]).add "c" "3").entries.length ≤ 2)
    ∧ (((LRUCache.mk 2 [("b", "2"), ("a", "1")]).add "c" "3").entries
        = ("c", "3") :: (LRUCache.mk 2 [("b", "2"), ("a", "1")]).entries.dropLast)
    ∧ ((LRUCache.mk 2 [("a", "1"), ("b", "2")]).entries.head? = some ("a", "1"))) :=
  ⟨lru_capacity_and_eviction.1 ⟨2, [("b", "2"), ("a", "1")]⟩ "c" "3" (by decide),
    lru_capacity_and_eviction.2.1 ⟨2, [("b", "2"), ("a", "1")]⟩ "c" "3" (by decide)
      (by decide) (by decide),
    lru_capacity_and_eviction.2.2.1 ⟨2, [("b", "2"), ("a", "1")]⟩ "a" "1"
      ⟨2, [("a", "1"), ("b", "2")]⟩ (by decide)⟩

/-- C10: `Merge` treats every child field equal to its zero value (empty
string, 0 number, 0 duration) as unset and keeps the parent's value for it,
and otherwise takes the child's value (one conjunct per configuration
field; the Go code operates on a copy, so the parent is not mutated); in
particular a child can never reset a non-zero parent `redis_db`, key prefix
or timeout back to zero. -/
theorem merge_zero_is_unset (p c : PluginConfig) :
    ((p.Merge c).s3Bucket = if c.s3Bucket = "" then p.s3Bucket else c.s3Bucket)
    ∧ ((p.Merge c).s3Key = if c.s3Key = "" then p.s3Key else c.s3Key)
    ∧ ((p.Merge c).s3Region = if c.s3Region = "" then p.s3Region else c.s3Region)
    ∧ ((p.Merge c).s3Endpoint = if c.s3Endpoint = "" then p.s3Endpoint else c.s3Endpoint)
    ∧ ((p.Merge c).redisAddr = if c.redisAddr = "" then p.redisAddr else c.redisAddr)
    ∧ ((p.Merge c).redisPassword
        = if c.redisPassword = "" then p.redisPassword else c.redisPassword)
    ∧ ((p.Merge c).redisDB = if c.redisDB = 0 then p.redisDB else c.redisDB)
    ∧ ((p.Merge c).redisKeyPfx
        = if c.redisKeyPfx = "" then p.redisKeyPfx else c.redisKeyPfx)
    ∧ ((p.Merge c).memoryCacheSize
        = if c.memoryCacheSize = 0 then p.memoryCacheSize else c.memoryCacheSize)
    ∧ ((p.Merge c).redisTTL = if c.redisTTL = 0 then p.redisTTL else c.redisTTL)
    ∧ ((p.Merge c).tenantExtractionMode
        = if c.tenantExtractionMode = "" then p.tenantExtractionMode
          else c.tenantExtractionMode)
    ∧ ((p.Merge c).tenantHeaderName
        = if c.tenantHeaderName = "" then p.tenantHeaderName else c.tenantHeaderName)
    ∧ ((p.Merge c).redisTimeout
        = if c.redisTimeout = 0 then p.redisTimeout else c.redisTimeout)
    ∧ ((p.Merge c).s3Timeout = if c.s3Timeout = 0 then p.s3Timeout else c.s3Timeout)
    ∧ (p.redisDB ≠ 0 → (p.Merge c).redisDB ≠ 0)
    ∧ (p.redisKeyPfx ≠ "" → (p.Merge c).redisKeyPfx ≠ "")
    ∧ (p.redisTimeout ≠ 0 → (p.Merge c).redisTimeout ≠ 0) := by
  refine ⟨?_, ?_, ?_, ?_, ?_, ?_, ?_, ?_, ?_, ?_, ?_, ?_, ?_, ?_, ?_, ?_, ?_⟩
  · by_cases h : c.s3Bucket = "" <;> simp [PluginConfig.Merge, h]
  · by_cases h : c.s3Key = "" <;> simp [PluginConfig.Merge, h]
  · by_cases h : c.s3Region = "" <;> simp [PluginConfig.Merge, h]
  · by_cases h : c.s3Endpoint = "" <;> simp [PluginConfig.Merge, h]
  · by_cases h : c.redisAddr = "" <;> simp [PluginConfig.Merge, h]
  · by_cases h : c.redisPassword = "" <;> simp [PluginConfig.Merge, h]
  · by_cases h : c.redisDB = 0 <;> simp [PluginConfig.Merge, h]
  · by_cases h : c.redisKeyPfx = "" <;> simp [PluginConfig.Merge, h]
  · by_cases h : c.memoryCacheSize = 0 <;> simp [PluginConfig.Merge, h]
  · by_cases h : c.redisTTL = 0 <;> simp [PluginConfig.Merge, h]
  · by_cases h : c.tenantExtractionMode = "" <;> simp [PluginConfig.Merge, h]
  · by_cases h : c.tenantHeaderName = "" <;> simp [PluginConfig.Merge, h]
  · by_cases h : c.redisTimeout = 0 <;> simp [PluginConfig.Merge, h]
  · by_cases h : c.s3Timeout = 0 <;> simp [PluginConfig.Merge, h]
  · intro hp
    by_cases h : c.redisDB = 0 <;> simp [PluginConfig.Merge, h, hp]
  · intro hp
    by_cases h : c.redisKeyPfx = "" <;> simp [PluginConfig.Merge, h, hp]
  · intro hp
    by_cases h : c.redisTimeout = 0 <;> simp [PluginConfig.Merge, h, hp]

/-- Witness for `merge_zero_is_unset`: an all-zero child leaves the sample
parent's non-zero settings intact. -/
theorem merge_zero_is_unset_witness :
    ((sampleConfig.Merge zeroConfig).redisDB ≠ 0)
    ∧ ((sampleConfig.Merge zeroConfig).redisKeyPfx ≠ "")
    ∧ ((sampleConfig.Merge zeroConfig).redisTimeout ≠ 0) :=
  ⟨(merge_zero_is_unset sampleConfig zeroConfig).2.2.2.2.2.2.2.2.2.2.2.2.2.2.1
      (by decide),
    (merge_zero_is_unset sampleConfig zeroConfig).2.2.2.2.2.2.2.2.2.2.2.2.2.2.2.1
      (by decide),
    (merge_zero_is_unset sampleConfig zeroConfig).2.2.2.2.2.2.2.2.2.2.2.2.2.2.2.2
      (by decide)⟩
